import Mathlib

/-!
Verification development for the PanTompkinsQRS repository
(`src/panTompkins.c`, `src/PanTompkinsEmbedded.c`, `src/PanTompkinsEmbedded.h`).

Shallow embedding conventions:
* C `dataType` is `int`; amplitudes are modelled as unbounded `ℤ` (no claim in
  scope depends on 32-bit overflow, and all concrete runs stay far below 2^31).
* Sample counters (`sample`, `lastQRS`, `i`, `j`, `current`) are `long unsigned int`
  (resp. `uint32_t` in the embedded file); they are modelled as `ℕ`.  The reachable
  states of the detector always satisfy `lastQRS ≤ sample`, and every subtraction
  the code performs on these counters is non-negative there, so `ℕ` subtraction
  agrees with the C unsigned subtraction on such states.  The one place where a
  C unsigned expression can mathematically go negative — the back-search start
  index `current - (sample - lastQRS) + FS/5` — wraps around to a huge value in C,
  which makes the scan loop run zero times; this is modelled explicitly by an
  integer start index, with an empty scan range when it is negative.
* Assignments of `double` expressions to `dataType` variables truncate toward
  zero (C conversion).  All the `double` constants involved in decision-relevant
  arithmetic (0.5, 0.25, 0.125, 0.875, 0.75) are exactly representable, and for
  such moderate operands the double computation is exact, so the assignment is
  modelled as exact rational arithmetic followed by truncation toward zero,
  `Int.tdiv` (Lean's T-division).  The remaining constants (0.995, 0.36, 0.92,
  1.16, 1.66) are modelled by their exact rational values with final truncation;
  a double/rational divergence would need an operand within ~1e-13 of an integer
  boundary, which no claim and no concrete run here comes near.  In particular
  `(long unsigned int)(0.36*FS)` is 129 for FS = 360 and 90 for FS = 250 under
  both the IEEE and the rational reading.
* C arrays are modelled as total maps `ℕ → ℤ` (zero where C leaves memory
  indeterminate; no decision-relevant read of a never-written slot occurs in
  any run used below, and the sources never branch on an unwritten slot before
  writing it).
-/

namespace PT

/-- WINDOWSIZE from `src/panTompkins.c`: integrator window size in samples. -/
def WINDOWSIZE : ℕ := 20

/-- NOSAMPLE from `src/panTompkins.c`: end-of-stream sentinel sample value. -/
def NOSAMPLE : ℤ := -32000

/-- FS from `src/panTompkins.c`: sampling frequency. -/
def FS : ℕ := 360

/-- BUFFSIZE from `src/panTompkins.c`: length of every signal buffer. -/
def BUFFSIZE : ℕ := 600

/-- DELAY from `src/panTompkins.c`: filter delay before output starts. -/
def DELAY : ℕ := 14

/-- MOVING_AVG_LEN from `src/panTompkins.c`: detrend window length. -/
def MOVING_AVG_LEN : ℕ := 5

/-- The value of the C expression `(long unsigned int)(0.36*FS)` for FS = 360:
0.36·360 = 129.6 truncates to 129 (same under IEEE double evaluation). -/
def SOFTLIMIT : ℕ := 129

/-- Pointwise array write, `buf[k] = v`. -/
def upd (f : ℕ → ℤ) (k : ℕ) (v : ℤ) : ℕ → ℤ := fun n => if n = k then v else f n

/-- Pointwise array write for the boolean decision buffer. -/
def updB (f : ℕ → Bool) (k : ℕ) (v : Bool) : ℕ → Bool := fun n => if n = k then v else f n

/-- The full-buffer shift `for i < BUFFSIZE-1: buf[i] = buf[i+1]` (the last slot
keeps its stale value until the current-sample computation overwrites it). -/
def shiftBuf (f : ℕ → ℤ) : ℕ → ℤ := fun n => if n < BUFFSIZE - 1 then f (n + 1) else f n

/-- Shift for the boolean decision buffer. -/
def shiftBufB (f : ℕ → Bool) : ℕ → Bool := fun n => if n < BUFFSIZE - 1 then f (n + 1) else f n

/-- Conversion of a (possibly negative) C `int` to `long unsigned int`,
used by `(long unsigned int)rrmiss`. -/
def uintCast64 (x : ℤ) : ℕ := ((x % (2 : ℤ) ^ 64).toNat)

/-- Sum of the `m` most recent entries `f c + f (c-1) + ... + f (c-m+1)`,
the accumulation loop of the moving-window integral. -/
def winSum (f : ℕ → ℤ) (c : ℕ) : ℕ → ℤ
  | 0 => 0
  | m + 1 => winSum f c m + f (c - m)

/-- Fold of the slope-search loop `for j in [j0, j0+m): if f j > acc then acc := f j`
starting from `currentSlope = 0`. -/
def slopeScan (f : ℕ → ℤ) (j0 : ℕ) : ℕ → ℤ
  | 0 => 0
  | m + 1 => max (slopeScan f j0 m) (f (j0 + m))

/-- The slope window maximum `currentSlope` computed at buffer index `c`:
`for (j = c - 10; j <= c; j++) if (squared[j] > currentSlope) ...`.
When `c < 10` the unsigned expression `c - 10` wraps around to a huge index,
so the loop body never runs and `currentSlope` stays 0. -/
def slopeAt (f : ℕ → ℤ) (c : ℕ) : ℤ := if c < 10 then 0 else slopeScan f (c - 10) 11

end PT

/-- Primary-path slope rejection test from `src/panTompkins.c` lines 429-437:
`currentSlope <= (dataType)(lastSlope/2)` (the division is unsigned, the
conversion to `dataType` is exact for the magnitudes in scope). -/
def primarySlopeReject (cs ls : ℤ) : Bool := decide (cs ≤ Int.tdiv ls 2)

/-- Back-search slope rejection test from `src/panTompkins.c` line 558:
`(currentSlope < (dataType)(lastSlope/2)) && (i + sample) < lastQRS + 0.36*lastQRS`.
The right conjunct mixes the buffer index `i` and the stream counter `sample`
with a duration scaled from `lastQRS`; the comparison happens in `double`,
whose value here is the exact rational `lastQRS + (36/100)*lastQRS`, so the
comparison is written multiplied through by 100:
`i + sample < lastQRS + 0.36*lastQRS  ↔  100*(i + sample) < 136*lastQRS`. -/
def backsearchSlopeReject (cs ls : ℤ) (i sample lastQRS : ℕ) : Bool :=
  decide (cs < Int.tdiv ls 2) && decide (100 * (i + sample) < 136 * lastQRS)

namespace PT

/-- Detector state of `panTompkins()` (`src/panTompkins.c`): the eight signal
buffers, the detrend window, the RR histories and scalars, the adaptive
threshold scalars, and the loop-carried counters.  `prevRegular` is assigned
before every use inside a single iteration and is therefore not state. -/
structure PTState where
  signal : ℕ → ℤ
  dcblock : ℕ → ℤ
  lowpass : ℕ → ℤ
  highpass : ℕ → ℤ
  derivative : ℕ → ℤ
  squared : ℕ → ℤ
  integral : ℕ → ℤ
  outputSignal : ℕ → Bool
  movWindow : List ℤ
  rr1 : List ℤ
  rr2 : List ℤ
  rravg1 : ℤ
  rravg2 : ℤ
  rrlow : ℤ
  rrhigh : ℤ
  rrmiss : ℤ
  sample : ℕ
  lastQRS : ℕ
  lastSlope : ℤ
  current : ℕ
  peak_i : ℤ
  peak_f : ℤ
  threshold_i1 : ℤ
  threshold_i2 : ℤ
  threshold_f1 : ℤ
  threshold_f2 : ℤ
  spk_i : ℤ
  spk_f : ℤ
  npk_i : ℤ
  npk_f : ℤ
  regular : Bool

/-- Initial state: C zero-initialization of all detector variables
(`regular = true` per the declaration in `panTompkins()`). -/
def init : PTState where
  signal := fun _ => 0
  dcblock := fun _ => 0
  lowpass := fun _ => 0
  highpass := fun _ => 0
  derivative := fun _ => 0
  squared := fun _ => 0
  integral := fun _ => 0
  outputSignal := fun _ => false
  movWindow := [0, 0, 0, 0, 0]
  rr1 := [0, 0, 0, 0, 0, 0, 0, 0]
  rr2 := [0, 0, 0, 0, 0, 0, 0, 0]
  rravg1 := 0
  rravg2 := 0
  rrlow := 0
  rrhigh := 0
  rrmiss := 0
  sample := 0
  lastQRS := 0
  lastSlope := 0
  current := 0
  peak_i := 0
  peak_f := 0
  threshold_i1 := 0
  threshold_i2 := 0
  threshold_f1 := 0
  threshold_f2 := 0
  spk_i := 0
  spk_f := 0
  npk_i := 0
  npk_f := 0
  regular := true

/-- Buffer intake (`src/panTompkins.c` lines 291-310): when the buffers are
full shift all eight of them, set `current`, and store the new raw sample at
`signal[current]`.  This happens before the end-of-stream test. -/
def ingest (s : PTState) (x : ℤ) : PTState :=
  if BUFFSIZE ≤ s.sample then
    { s with
      signal := upd (shiftBuf s.signal) (BUFFSIZE - 1) x
      dcblock := shiftBuf s.dcblock
      lowpass := shiftBuf s.lowpass
      highpass := shiftBuf s.highpass
      derivative := shiftBuf s.derivative
      squared := shiftBuf s.squared
      integral := shiftBuf s.integral
      outputSignal := shiftBufB s.outputSignal
      current := BUFFSIZE - 1 }
  else
    { s with signal := upd s.signal s.sample x, current := s.sample }

/-- Moving-average detrend (`src/panTompkins.c` lines 317-344), applied after
`sample++`: the newest raw sample is written into the last window slot; once
`sample > MOVING_AVG_LEN`, the sum of the element-wise truncated divisions
`moving_avg_window[k]/MOVING_AVG_LEN` is subtracted from `signal[current]`
and the window shifts down by one. -/
def detrend (s : PTState) : PTState :=
  let c := s.current
  let x := s.signal c
  let w := s.movWindow.set 4 x
  if MOVING_AVG_LEN < s.sample ∧ x ≠ NOSAMPLE then
    let mov_avg := (w.map (fun v => Int.tdiv v 5)).sum
    { s with movWindow := w.tail ++ [x], signal := upd s.signal c (x - mov_avg) }
  else
    { s with movWindow := w }

/-- The filter cascade (`src/panTompkins.c` lines 347-407): DC block, low pass,
high pass, derivative, square, moving-window integral, each written into its
buffer at `current`. -/
def filters (s : PTState) : PTState :=
  let c := s.current
  let dc : ℤ :=
    if 1 ≤ c then Int.tdiv (200 * (s.signal c - s.signal (c - 1)) + 199 * s.dcblock (c - 1)) 200
    else 0
  let s : PTState := { s with dcblock := upd s.dcblock c dc }
  let lp : ℤ :=
    s.dcblock c + (if 1 ≤ c then 2 * s.lowpass (c - 1) else 0)
      - (if 2 ≤ c then s.lowpass (c - 2) else 0)
      - (if 6 ≤ c then 2 * s.dcblock (c - 6) else 0)
      + (if 12 ≤ c then s.dcblock (c - 12) else 0)
  let s : PTState := { s with lowpass := upd s.lowpass c lp }
  let hp : ℤ :=
    -(s.lowpass c) - (if 1 ≤ c then s.highpass (c - 1) else 0)
      + (if 16 ≤ c then 32 * s.lowpass (c - 16) else 0)
      + (if 32 ≤ c then s.lowpass (c - 32) else 0)
  let s : PTState := { s with highpass := upd s.highpass c hp }
  let dv : ℤ := s.highpass c - (if 0 < c then s.highpass (c - 1) else 0)
  let s : PTState := { s with derivative := upd s.derivative c dv }
  let sq : ℤ := dv * dv
  let s : PTState := { s with squared := upd s.squared c sq }
  let k := min (c + 1) WINDOWSIZE
  let iv : ℤ := Int.tdiv (winSum s.squared c k) k
  { s with integral := upd s.integral c iv }

/-- Noise-peak update (`src/panTompkins.c` lines 476-483 and 641-648):
`npk = 0.125*peak + 0.875*npk`, `threshold1 = npk + 0.25*(spk - npk)`,
`threshold2 = 0.5*threshold1`, on both signal paths; `peak_i/peak_f` are
re-read from the current buffers first. -/
def noiseUpdate (s : PTState) : PTState :=
  let peak_i := s.integral s.current
  let npk_i := Int.tdiv (peak_i + 7 * s.npk_i) 8
  let threshold_i1 := Int.tdiv (3 * npk_i + s.spk_i) 4
  let peak_f := s.highpass s.current
  let npk_f := Int.tdiv (peak_f + 7 * s.npk_f) 8
  let threshold_f1 := Int.tdiv (3 * npk_f + s.spk_f) 4
  { s with
    peak_i := peak_i, npk_i := npk_i
    threshold_i1 := threshold_i1, threshold_i2 := Int.tdiv threshold_i1 2
    peak_f := peak_f, npk_f := npk_f
    threshold_f1 := threshold_f1, threshold_f2 := Int.tdiv threshold_f1 2 }

/-- RR-interval update on a direct confirmation (`src/panTompkins.c` lines
494-541): shift `rr1` in the new interval, advance `lastQRS`, recompute
`rravg1`; when the interval is within `[rrlow, rrhigh]` shift it into `rr2`
and re-derive `rravg2`, `rrlow = 0.92*rravg2`, `rrhigh = 1.16*rravg2`,
`rrmiss = 1.66*rravg2`; finally re-evaluate rhythm regularity, halving
`threshold_i1`/`threshold_f1` (C integer division by 2) on a
regular-to-irregular transition. -/
def rrUpdatePrimary (s : PTState) : PTState :=
  let interval : ℤ := (s.sample : ℤ) - (s.lastQRS : ℤ)
  let rr1 := s.rr1.tail ++ [interval]
  let s : PTState := { s with rr1 := rr1, lastQRS := s.sample, rravg1 := Int.tdiv rr1.sum 8 }
  let s : PTState :=
    if s.rrlow ≤ interval ∧ interval ≤ s.rrhigh then
      let rr2 := s.rr2.tail ++ [interval]
      let rravg2 := Int.tdiv rr2.sum 8
      { s with rr2 := rr2, rravg2 := rravg2
               rrlow := Int.tdiv (92 * rravg2) 100
               rrhigh := Int.tdiv (116 * rravg2) 100
               rrmiss := Int.tdiv (166 * rravg2) 100 }
    else s
  let prevRegular := s.regular
  if s.rravg1 = s.rravg2 then { s with regular := true }
  else
    let s : PTState := { s with regular := false }
    if prevRegular then
      { s with threshold_i1 := Int.tdiv s.threshold_i1 2
               threshold_f1 := Int.tdiv s.threshold_f1 2 }
    else s

/-- Signal-peak acceptance on the primary path (`src/panTompkins.c` lines
439-471 followed by 494-541 and the final `outputSignal[current] = qrs`):
blend `spk` with weight 0.125/0.875, re-derive both threshold pairs, record
the slope, run the RR update, and flag the current position as a beat. -/
def confirmPrimary (s : PTState) (cs : ℤ) : PTState × Bool :=
  let c := s.current
  let spk_i := Int.tdiv (s.peak_i + 7 * s.spk_i) 8
  let threshold_i1 := Int.tdiv (3 * s.npk_i + spk_i) 4
  let spk_f := Int.tdiv (s.peak_f + 7 * s.spk_f) 8
  let threshold_f1 := Int.tdiv (3 * s.npk_f + spk_f) 4
  let s : PTState := { s with
    spk_i := spk_i, threshold_i1 := threshold_i1, threshold_i2 := Int.tdiv threshold_i1 2
    spk_f := spk_f, threshold_f1 := threshold_f1, threshold_f2 := Int.tdiv threshold_f1 2
    lastSlope := cs }
  let s : PTState := rrUpdatePrimary s
  ({ s with outputSignal := updB s.outputSignal c true }, true)

/-- Back-search scan range (`src/panTompkins.c` line 549): indices
`i = current - (sample - lastQRS) + FS/5` up to `current - 1`.  The start is
computed in unsigned arithmetic; when it is mathematically negative it wraps
to a huge value and the loop body never runs, modelled by an empty range. -/
def bsearchIdxs (s : PTState) : List ℕ :=
  let startZ : ℤ := (s.current : ℤ) - ((s.sample - s.lastQRS : ℕ) : ℤ) + (FS / 5 : ℕ)
  if 0 ≤ startZ then List.range' startZ.toNat (s.current - startZ.toNat) else []

/-- Back-search candidate test (`src/panTompkins.c` line 551):
`integral[i] > threshold_i2 && highpass[i] > threshold_f2`. -/
def bsCandidate (s : PTState) (i : ℕ) : Bool :=
  decide (s.threshold_i2 < s.integral i) && decide (s.threshold_f2 < s.highpass i)

/-- The back-search loop: the first scanned index whose secondary-threshold
candidate test passes and whose slope-rejection test fails is accepted; a
rejected candidate (`qrs = false`, no state change) lets the loop continue. -/
def bsearchFind (s : PTState) : Option ℕ :=
  (bsearchIdxs s).find? fun i =>
    bsCandidate s i && ! backsearchSlopeReject (slopeAt s.squared i) s.lastSlope i s.sample s.lastQRS

/-- Back-search acceptance (`src/panTompkins.c` lines 562-632): blend `spk`
with the faster weight 0.25/0.75, re-derive thresholds, record the slope, run
the RR update with the recovered position `sample - (current - i)`, and write
the decision flags.  When the recovered interval falls inside
`[rrlow, rrhigh]`, the C `rr2` shift loop at line 592 reuses the back-search
index variable `i`, leaving `i = 7` at the `outputSignal[i] = true` write on
line 628; the flag then lands at absolute buffer index 7 instead of the
recovered index. -/
def backsearchConfirm (s : PTState) (i : ℕ) : PTState × Bool :=
  let c := s.current
  let cs := slopeAt s.squared i
  let peak_i := s.integral i
  let peak_f := s.highpass i
  let spk_i := Int.tdiv (peak_i + 3 * s.spk_i) 4
  let spk_f := Int.tdiv (peak_f + 3 * s.spk_f) 4
  let threshold_i1 := Int.tdiv (3 * s.npk_i + spk_i) 4
  let threshold_f1 := Int.tdiv (3 * s.npk_f + spk_f) 4
  let s : PTState := { s with
    peak_i := peak_i, peak_f := peak_f, spk_i := spk_i, spk_f := spk_f
    threshold_i1 := threshold_i1, threshold_i2 := Int.tdiv threshold_i1 2
    threshold_f1 := threshold_f1, threshold_f2 := Int.tdiv threshold_f1 2
    lastSlope := cs }
  let interval : ℤ := (s.sample : ℤ) - ((c - i : ℕ) : ℤ) - (s.lastQRS : ℤ)
  let rr1 := s.rr1.tail ++ [interval]
  let s : PTState := { s with rr1 := rr1, lastQRS := s.sample - (c - i), rravg1 := Int.tdiv rr1.sum 8 }
  let inRange := s.rrlow ≤ interval ∧ interval ≤ s.rrhigh
  let s : PTState :=
    if inRange then
      let rr2 := s.rr2.tail ++ [interval]
      let rravg2 := Int.tdiv rr2.sum 8
      { s with rr2 := rr2, rravg2 := rravg2
               rrlow := Int.tdiv (92 * rravg2) 100
               rrhigh := Int.tdiv (116 * rravg2) 100
               rrmiss := Int.tdiv (166 * rravg2) 100 }
    else s
  let prevRegular := s.regular
  let s : PTState :=
    if s.rravg1 = s.rravg2 then { s with regular := true }
    else
      let s : PTState := { s with regular := false }
      if prevRegular then
        { s with threshold_i1 := Int.tdiv s.threshold_i1 2
                 threshold_f1 := Int.tdiv s.threshold_f1 2 }
      else s
  let outIdx := if inRange then 7 else i
  let s : PTState := { s with outputSignal := updB (updB s.outputSignal c false) outIdx true }
  (s, s.outputSignal c)

/-- The no-beat tail (`src/panTompkins.c` lines 543-651 plus the final
`outputSignal[current] = qrs`): when the elapsed time since `lastQRS` exceeds
`rrmiss` (cast to unsigned) and the hard refractory has passed, run the
back-search; otherwise, or when the scan recovers nothing, apply the
noise-peak update if either single threshold was met, and flag the current
position as no beat. -/
def noQRS (s : PTState) : PTState × Bool :=
  let c := s.current
  let fallthrough : PTState × Bool :=
    let s : PTState :=
      if s.threshold_i1 ≤ s.integral c ∨ s.threshold_f1 ≤ s.highpass c then noiseUpdate s else s
    let s : PTState := { s with outputSignal := updB s.outputSignal c false }
    (s, false)
  if uintCast64 s.rrmiss < s.sample - s.lastQRS ∧ s.lastQRS + FS / 5 < s.sample then
    match bsearchFind s with
    | some i => backsearchConfirm s i
    | none => fallthrough
  else fallthrough

/-- The single-threshold peak-candidate update (`src/panTompkins.c` lines
412-416): whenever either signal path meets its primary threshold, `peak_i`
and `peak_f` are refreshed from the current buffers (feeding later noise-peak
updates even on rejection). -/
def peakUpdate (s : PTState) : PTState :=
  if s.threshold_i1 ≤ s.integral s.current ∨ s.threshold_f1 ≤ s.highpass s.current then
    { s with peak_i := s.integral s.current, peak_f := s.highpass s.current }
  else s

/-- The per-sample classifier, continued: the dual-threshold QRS test with
its hard-refractory and soft-window timing gates, and the no-beat tail.
The returned boolean is the final value of `outputSignal[current]` for this
iteration.  (The peak update leaves the buffers and `current` untouched, so
re-reading `integral[current]` and `highpass[current]` from the updated state
is the source's reuse of the values read at lines 412-419.) -/
def decidePhase (s0 : PTState) : PTState × Bool :=
  let s := peakUpdate s0
  let c := s.current
  let integC := s.integral c
  let hpC := s.highpass c
  if s.threshold_i1 ≤ integC ∧ s.threshold_f1 ≤ hpC then
    if s.lastQRS + FS / 5 < s.sample then
      if s.sample ≤ s.lastQRS + SOFTLIMIT then
        let cs := slopeAt s.squared c
        if primarySlopeReject cs s.lastSlope then noQRS s
        else confirmPrimary s cs
      else
        let cs := slopeAt s.squared c
        confirmPrimary s cs
    else
      let s : PTState := noiseUpdate s
      ({ s with outputSignal := updB s.outputSignal c false }, false)
  else noQRS s

/-- One iteration of the `panTompkins()` main loop: intake, end-of-stream
test, sample-counter increment, detrend, filters, classification.  `none`
means the sentinel was consumed and the loop breaks (with the intake already
performed, as in the source). -/
def ptStep (s : PTState) (x : ℤ) : PTState × Option Bool :=
  let s1 := ingest s x
  if x = NOSAMPLE then (s1, none)
  else
    let s2 := { s1 with sample := s1.sample + 1 }
    let s3 := filters (detrend s2)
    decidePhase s3 |>.map id some

/-- Run the detector over a list of input samples, collecting the per-sample
decision (`none` once the sentinel is hit; processing stops there). -/
def runTrace : PTState → List ℤ → PTState × List (Option Bool)
  | s, [] => (s, [])
  | s, x :: xs =>
    match ptStep s x with
    | (s', none) => (s', [none])
    | (s', some d) =>
      let r := runTrace s' xs
      (r.1, some d :: r.2)

/-- Well-formedness of a mid-iteration detector state at the classification
phase, true of every state the processing loop actually reaches there: the
last confirmed beat lies strictly in the past, and `current` is the standard
buffer cursor for the (already incremented) sample counter
(`src/panTompkins.c` lines 296-308). -/
def PTwf (s : PTState) : Prop :=
  s.lastQRS < s.sample ∧ s.current = min (s.sample - 1) (BUFFSIZE - 1)

end PT

namespace PTE

/-- WINDOWSIZE from `src/PanTompkinsEmbedded.c`. -/
def WINDOWSIZE : ℕ := 40

/-- NOSAMPLE from `src/PanTompkinsEmbedded.c`. -/
def NOSAMPLE : ℤ := -32000

/-- FS from `src/PanTompkinsEmbedded.c`. -/
def FS : ℕ := 250

/-- BUFFSIZE from `src/PanTompkinsEmbedded.c`. -/
def BUFFSIZE : ℕ := 415

/-- DELAY from `src/PanTompkinsEmbedded.c`. -/
def DELAY : ℕ := 14

/-- MOVING_AVG_LEN from `src/PanTompkinsEmbedded.c`. -/
def MOVING_AVG_LEN : ℕ := 5

/-- The value of the C expression `(uint32_t)(0.36*FS)` for FS = 250: the IEEE
double product `0.36*250` rounds to exactly 90.0, which truncates to 90 (the
exact rational reading also gives 90). -/
def SOFTLIMIT : ℕ := 90

/-- The full-buffer shift for the embedded buffer length. -/
def shiftBuf (f : ℕ → ℤ) : ℕ → ℤ := fun n => if n < BUFFSIZE - 1 then f (n + 1) else f n

/-- Shift for the boolean decision buffer, embedded buffer length. -/
def shiftBufB (f : ℕ → Bool) : ℕ → Bool := fun n => if n < BUFFSIZE - 1 then f (n + 1) else f n

/-- Conversion of a C `int` to `uint32_t`, used by `(uint32_t)rrmiss`. -/
def uintCast32 (x : ℤ) : ℕ := ((x % (2 : ℤ) ^ 32).toNat)

/-- FilterState from `src/PanTompkinsEmbedded.h` lines 19-37: the snapshot
struct holding the two 8-entry RR histories, the five RR scalars, and the ten
peak/threshold/spk/npk scalars.  It contains no other field. -/
structure FilterState where
  rr1 : List ℤ
  rr2 : List ℤ
  rravg1 : ℤ
  rravg2 : ℤ
  rrlow : ℤ
  rrhigh : ℤ
  rrmiss : ℤ
  peak_i : ℤ
  peak_f : ℤ
  threshold_i1 : ℤ
  threshold_i2 : ℤ
  threshold_f1 : ℤ
  threshold_f2 : ℤ
  spk_i : ℤ
  spk_f : ℤ
  npk_i : ℤ
  npk_f : ℤ

/-- Full detector state of `src/PanTompkinsEmbedded.c`: the module-scope
globals (buffers, RR data, threshold scalars, `sample`, `current`, the saved
snapshot) together with the variables local to one `PanTompkins()` invocation
(`lastQRS`, `lastSlope`, `regular`, the `last_avg` window), which
`PanTompkins()` re-initializes at every call. -/
structure EState where
  signal : ℕ → ℤ
  dcblock : ℕ → ℤ
  lowpass : ℕ → ℤ
  highpass : ℕ → ℤ
  derivative : ℕ → ℤ
  squared : ℕ → ℤ
  integral : ℕ → ℤ
  outputSignal : ℕ → Bool
  movWindow : List ℤ
  rr1 : List ℤ
  rr2 : List ℤ
  rravg1 : ℤ
  rravg2 : ℤ
  rrlow : ℤ
  rrhigh : ℤ
  rrmiss : ℤ
  sample : ℕ
  lastQRS : ℕ
  lastSlope : ℤ
  current : ℕ
  peak_i : ℤ
  peak_f : ℤ
  threshold_i1 : ℤ
  threshold_i2 : ℤ
  threshold_f1 : ℤ
  threshold_f2 : ℤ
  spk_i : ℤ
  spk_f : ℤ
  npk_i : ℤ
  npk_f : ℤ
  regular : Bool
  saved : FilterState

/-- A fresh process image: C zero-initialization of all globals and the
run-local variables as `PanTompkins()` first sets them. -/
def initE : EState where
  signal := fun _ => 0
  dcblock := fun _ => 0
  lowpass := fun _ => 0
  highpass := fun _ => 0
  derivative := fun _ => 0
  squared := fun _ => 0
  integral := fun _ => 0
  outputSignal := fun _ => false
  movWindow := [0, 0, 0, 0, 0]
  rr1 := [0, 0, 0, 0, 0, 0, 0, 0]
  rr2 := [0, 0, 0, 0, 0, 0, 0, 0]
  rravg1 := 0
  rravg2 := 0
  rrlow := 0
  rrhigh := 0
  rrmiss := 0
  sample := 0
  lastQRS := 0
  lastSlope := 0
  current := 0
  peak_i := 0
  peak_f := 0
  threshold_i1 := 0
  threshold_i2 := 0
  threshold_f1 := 0
  threshold_f2 := 0
  spk_i := 0
  spk_f := 0
  npk_i := 0
  npk_f := 0
  regular := true
  saved := ⟨[0, 0, 0, 0, 0, 0, 0, 0], [0, 0, 0, 0, 0, 0, 0, 0],
            0, 0, 0, 0, 0, 0, 0, 0, 0, 0, 0, 0, 0, 0, 0⟩

end PTE

namespace PTE

/-- PanTompkins_setsaved_filterstate (`src/PanTompkinsEmbedded.c` lines
261-285): with a NULL pointer it returns immediately; otherwise it copies the
caller's struct field by field into the internal saved snapshot. -/
def PanTompkins_setsaved_filterstate (fs : Option FilterState) (s : EState) : EState :=
  match fs with
  | none => s
  | some f =>
    { s with saved :=
      { rr1 := f.rr1, rr2 := f.rr2
        rravg1 := f.rravg1, rravg2 := f.rravg2
        rrlow := f.rrlow, rrhigh := f.rrhigh, rrmiss := f.rrmiss
        peak_i := f.peak_i, peak_f := f.peak_f
        threshold_i1 := f.threshold_i1, threshold_i2 := f.threshold_i2
        threshold_f1 := f.threshold_f1, threshold_f2 := f.threshold_f2
        spk_i := f.spk_i, spk_f := f.spk_f
        npk_i := f.npk_i, npk_f := f.npk_f } }

/-- PanTompkins_exportsaved_filterstate (`src/PanTompkinsEmbedded.c` lines
287-311): with a NULL pointer it returns immediately (the caller's struct is
not written); otherwise the internal saved snapshot is copied out field by
field.  The returned value is the content of the caller's struct afterwards. -/
def PanTompkins_exportsaved_filterstate (fs : Option FilterState) (s : EState) :
    Option FilterState :=
  match fs with
  | none => none
  | some _ =>
    some
      { rr1 := s.saved.rr1, rr2 := s.saved.rr2
        rravg1 := s.saved.rravg1, rravg2 := s.saved.rravg2
        rrlow := s.saved.rrlow, rrhigh := s.saved.rrhigh, rrmiss := s.saved.rrmiss
        peak_i := s.saved.peak_i, peak_f := s.saved.peak_f
        threshold_i1 := s.saved.threshold_i1, threshold_i2 := s.saved.threshold_i2
        threshold_f1 := s.saved.threshold_f1, threshold_f2 := s.saved.threshold_f2
        spk_i := s.saved.spk_i, spk_f := s.saved.spk_f
        npk_i := s.saved.npk_i, npk_f := s.saved.npk_f }

/-- PanTompkins_save_filterstate (`src/PanTompkinsEmbedded.c` lines 312-334):
copy the live globals into the internal saved snapshot. -/
def PanTompkins_save_filterstate (s : EState) : EState :=
  { s with saved :=
    { rr1 := s.rr1, rr2 := s.rr2
      rravg1 := s.rravg1, rravg2 := s.rravg2
      rrlow := s.rrlow, rrhigh := s.rrhigh, rrmiss := s.rrmiss
      peak_i := s.peak_i, peak_f := s.peak_f
      threshold_i1 := s.threshold_i1, threshold_i2 := s.threshold_i2
      threshold_f1 := s.threshold_f1, threshold_f2 := s.threshold_f2
      spk_i := s.spk_i, spk_f := s.spk_f
      npk_i := s.npk_i, npk_f := s.npk_f } }

/-- PanTompkins_load_filterstate (`src/PanTompkinsEmbedded.c` lines 336-358):
copy the internal saved snapshot back into the live globals.  No other
variable is touched. -/
def PanTompkins_load_filterstate (s : EState) : EState :=
  { s with
    rr1 := s.saved.rr1, rr2 := s.saved.rr2
    rravg1 := s.saved.rravg1, rravg2 := s.saved.rravg2
    rrlow := s.saved.rrlow, rrhigh := s.saved.rrhigh, rrmiss := s.saved.rrmiss
    peak_i := s.saved.peak_i, peak_f := s.saved.peak_f
    threshold_i1 := s.saved.threshold_i1, threshold_i2 := s.saved.threshold_i2
    threshold_f1 := s.saved.threshold_f1, threshold_f2 := s.saved.threshold_f2
    spk_i := s.saved.spk_i, spk_f := s.saved.spk_f
    npk_i := s.saved.npk_i, npk_f := s.saved.npk_f }

/-- PanTompkins_init (`src/PanTompkinsEmbedded.c` lines 360-403): reset the
sample counter, RR data and all threshold scalars.  The signal buffers and
the saved snapshot are not touched (the Rs output array bookkeeping is
outside the modelled decision state). -/
def PanTompkins_init (s : EState) : EState :=
  { s with
    sample := 0
    rravg1 := 0, rravg2 := 0, rrlow := 0, rrhigh := 0, rrmiss := 0
    peak_i := 0, peak_f := 0
    threshold_i1 := 0, threshold_i2 := 0, threshold_f1 := 0, threshold_f2 := 0
    spk_i := 0, spk_f := 0, npk_i := 0, npk_f := 0
    rr1 := [0, 0, 0, 0, 0, 0, 0, 0]
    rr2 := [0, 0, 0, 0, 0, 0, 0, 0] }

/-- Buffer intake (`src/PanTompkinsEmbedded.c` lines 448-472). -/
def ingestE (s : EState) (x : ℤ) : EState :=
  if BUFFSIZE ≤ s.sample then
    { s with
      signal := PT.upd (shiftBuf s.signal) (BUFFSIZE - 1) x
      dcblock := shiftBuf s.dcblock
      lowpass := shiftBuf s.lowpass
      highpass := shiftBuf s.highpass
      derivative := shiftBuf s.derivative
      squared := shiftBuf s.squared
      integral := shiftBuf s.integral
      outputSignal := shiftBufB s.outputSignal
      current := BUFFSIZE - 1 }
  else
    { s with signal := PT.upd s.signal s.sample x, current := s.sample }

/-- Moving-average detrend (`src/PanTompkinsEmbedded.c` lines 473-489),
applied before the end-of-stream test with the pre-increment `sample` in the
guard: the newest value is written into the last `last_avg` slot; once
`sample > MOVING_AVG_LEN` (and the value is not the sentinel), the sum of the
element-wise truncated divisions `last_avg[q]/MOVING_AVG_LEN` is subtracted
from `signal[current]` and the window shifts down by one. -/
def detrendE (s : EState) : EState :=
  let c := s.current
  let x := s.signal c
  let w := s.movWindow.set 4 x
  if MOVING_AVG_LEN < s.sample ∧ x ≠ NOSAMPLE then
    let avg := (w.map (fun v => Int.tdiv v 5)).sum
    { s with movWindow := w.tail ++ [x], signal := PT.upd s.signal c (x - avg) }
  else
    { s with movWindow := w }

/-- The filter cascade (`src/PanTompkinsEmbedded.c` lines 495-555). -/
def filtersE (s : EState) : EState :=
  let c := s.current
  let dc : ℤ :=
    if 1 ≤ c then Int.tdiv (200 * (s.signal c - s.signal (c - 1)) + 199 * s.dcblock (c - 1)) 200
    else 0
  let s : EState := { s with dcblock := PT.upd s.dcblock c dc }
  let lp : ℤ :=
    s.dcblock c + (if 1 ≤ c then 2 * s.lowpass (c - 1) else 0)
      - (if 2 ≤ c then s.lowpass (c - 2) else 0)
      - (if 6 ≤ c then 2 * s.dcblock (c - 6) else 0)
      + (if 12 ≤ c then s.dcblock (c - 12) else 0)
  let s : EState := { s with lowpass := PT.upd s.lowpass c lp }
  let hp : ℤ :=
    -(s.lowpass c) - (if 1 ≤ c then s.highpass (c - 1) else 0)
      + (if 16 ≤ c then 32 * s.lowpass (c - 16) else 0)
      + (if 32 ≤ c then s.lowpass (c - 32) else 0)
  let s : EState := { s with highpass := PT.upd s.highpass c hp }
  let dv : ℤ := s.highpass c - (if 0 < c then s.highpass (c - 1) else 0)
  let s : EState := { s with derivative := PT.upd s.derivative c dv }
  let sq : ℤ := dv * dv
  let s : EState := { s with squared := PT.upd s.squared c sq }
  let k := min (c + 1) WINDOWSIZE
  let iv : ℤ := Int.tdiv (PT.winSum s.squared c k) k
  { s with integral := PT.upd s.integral c iv }

/-- Noise-peak update (`src/PanTompkinsEmbedded.c` lines 622-631 and
786-797). -/
def noiseUpdateE (s : EState) : EState :=
  let peak_i := s.integral s.current
  let npk_i := Int.tdiv (peak_i + 7 * s.npk_i) 8
  let threshold_i1 := Int.tdiv (3 * npk_i + s.spk_i) 4
  let peak_f := s.highpass s.current
  let npk_f := Int.tdiv (peak_f + 7 * s.npk_f) 8
  let threshold_f1 := Int.tdiv (3 * npk_f + s.spk_f) 4
  { s with
    peak_i := peak_i, npk_i := npk_i
    threshold_i1 := threshold_i1, threshold_i2 := Int.tdiv threshold_i1 2
    peak_f := peak_f, npk_f := npk_f
    threshold_f1 := threshold_f1, threshold_f2 := Int.tdiv threshold_f1 2 }

/-- RR-interval update on a direct confirmation (`src/PanTompkinsEmbedded.c`
lines 642-689). -/
def rrUpdatePrimaryE (s : EState) : EState :=
  let interval : ℤ := (s.sample : ℤ) - (s.lastQRS : ℤ)
  let rr1 := s.rr1.tail ++ [interval]
  let s : EState := { s with rr1 := rr1, lastQRS := s.sample, rravg1 := Int.tdiv rr1.sum 8 }
  let s : EState :=
    if s.rrlow ≤ interval ∧ interval ≤ s.rrhigh then
      let rr2 := s.rr2.tail ++ [interval]
      let rravg2 := Int.tdiv rr2.sum 8
      { s with rr2 := rr2, rravg2 := rravg2
               rrlow := Int.tdiv (92 * rravg2) 100
               rrhigh := Int.tdiv (116 * rravg2) 100
               rrmiss := Int.tdiv (166 * rravg2) 100 }
    else s
  let prevRegular := s.regular
  if s.rravg1 = s.rravg2 then { s with regular := true }
  else
    let s : EState := { s with regular := false }
    if prevRegular then
      { s with threshold_i1 := Int.tdiv s.threshold_i1 2
               threshold_f1 := Int.tdiv s.threshold_f1 2 }
    else s

/-- Signal-peak acceptance on the primary path (`src/PanTompkinsEmbedded.c`
lines 587-619 followed by the RR update and the final decision write). -/
def confirmPrimaryE (s : EState) (cs : ℤ) : EState × Bool :=
  let c := s.current
  let spk_i := Int.tdiv (s.peak_i + 7 * s.spk_i) 8
  let threshold_i1 := Int.tdiv (3 * s.npk_i + spk_i) 4
  let spk_f := Int.tdiv (s.peak_f + 7 * s.spk_f) 8
  let threshold_f1 := Int.tdiv (3 * s.npk_f + spk_f) 4
  let s : EState := { s with
    spk_i := spk_i, threshold_i1 := threshold_i1, threshold_i2 := Int.tdiv threshold_i1 2
    spk_f := spk_f, threshold_f1 := threshold_f1, threshold_f2 := Int.tdiv threshold_f1 2
    lastSlope := cs }
  let s : EState := rrUpdatePrimaryE s
  ({ s with outputSignal := PT.updB s.outputSignal c true }, true)

/-- Back-search scan range (`src/PanTompkinsEmbedded.c` line 697), with the
same unsigned-wrap reading as for `src/panTompkins.c`. -/
def bsearchIdxsE (s : EState) : List ℕ :=
  let startZ : ℤ := (s.current : ℤ) - ((s.sample - s.lastQRS : ℕ) : ℤ) + (FS / 5 : ℕ)
  if 0 ≤ startZ then List.range' startZ.toNat (s.current - startZ.toNat) else []

/-- Back-search candidate test (`src/PanTompkinsEmbedded.c` line 699). -/
def bsCandidateE (s : EState) (i : ℕ) : Bool :=
  decide (s.threshold_i2 < s.integral i) && decide (s.threshold_f2 < s.highpass i)

/-- The back-search loop of the embedded source (lines 697-771). -/
def bsearchFindE (s : EState) : Option ℕ :=
  (bsearchIdxsE s).find? fun i =>
    bsCandidateE s i && ! backsearchSlopeReject (PT.slopeAt s.squared i) s.lastSlope i s.sample s.lastQRS

/-- Back-search acceptance (`src/PanTompkinsEmbedded.c` lines 710-780),
including the loop-variable clobbering of `i` by the `rr2` shift loop at line
740 before the `outputSignal[i] = true` write at line 776. -/
def backsearchConfirmE (s : EState) (i : ℕ) : EState × Bool :=
  let c := s.current
  let cs := PT.slopeAt s.squared i
  let peak_i := s.integral i
  let peak_f := s.highpass i
  let spk_i := Int.tdiv (peak_i + 3 * s.spk_i) 4
  let spk_f := Int.tdiv (peak_f + 3 * s.spk_f) 4
  let threshold_i1 := Int.tdiv (3 * s.npk_i + spk_i) 4
  let threshold_f1 := Int.tdiv (3 * s.npk_f + spk_f) 4
  let s : EState := { s with
    peak_i := peak_i, peak_f := peak_f, spk_i := spk_i, spk_f := spk_f
    threshold_i1 := threshold_i1, threshold_i2 := Int.tdiv threshold_i1 2
    threshold_f1 := threshold_f1, threshold_f2 := Int.tdiv threshold_f1 2
    lastSlope := cs }
  let interval : ℤ := (s.sample : ℤ) - ((c - i : ℕ) : ℤ) - (s.lastQRS : ℤ)
  let rr1 := s.rr1.tail ++ [interval]
  let s : EState := { s with rr1 := rr1, lastQRS := s.sample - (c - i), rravg1 := Int.tdiv rr1.sum 8 }
  let inRange := s.rrlow ≤ interval ∧ interval ≤ s.rrhigh
  let s : EState :=
    if inRange then
      let rr2 := s.rr2.tail ++ [interval]
      let rravg2 := Int.tdiv rr2.sum 8
      { s with rr2 := rr2, rravg2 := rravg2
               rrlow := Int.tdiv (92 * rravg2) 100
               rrhigh := Int.tdiv (116 * rravg2) 100
               rrmiss := Int.tdiv (166 * rravg2) 100 }
    else s
  let prevRegular := s.regular
  let s : EState :=
    if s.rravg1 = s.rravg2 then { s with regular := true }
    else
      let s : EState := { s with regular := false }
      if prevRegular then
        { s with threshold_i1 := Int.tdiv s.threshold_i1 2
                 threshold_f1 := Int.tdiv s.threshold_f1 2 }
      else s
  let outIdx := if inRange then 7 else i
  let s : EState := { s with outputSignal := PT.updB (PT.updB s.outputSignal c false) outIdx true }
  (s, s.outputSignal c)

/-- The no-beat tail of the embedded source (lines 690-799 plus the final
decision write). -/
def noQRSE (s : EState) : EState × Bool :=
  let c := s.current
  let fallthrough : EState × Bool :=
    let s : EState :=
      if s.threshold_i1 ≤ s.integral c ∨ s.threshold_f1 ≤ s.highpass c then noiseUpdateE s else s
    let s : EState := { s with outputSignal := PT.updB s.outputSignal c false }
    (s, false)
  if uintCast32 s.rrmiss < s.sample - s.lastQRS ∧ s.lastQRS + FS / 5 < s.sample then
    match bsearchFindE s with
    | some i => backsearchConfirmE s i
    | none => fallthrough
  else fallthrough

/-- The single-threshold peak-candidate update of the embedded source
(lines 559-564). -/
def peakUpdateE (s : EState) : EState :=
  if s.threshold_i1 ≤ s.integral s.current ∨ s.threshold_f1 ≤ s.highpass s.current then
    { s with peak_i := s.integral s.current, peak_f := s.highpass s.current }
  else s

/-- The per-sample classifier of the embedded source (lines 557-809). -/
def decidePhaseE (s0 : EState) : EState × Bool :=
  let s := peakUpdateE s0
  let c := s.current
  let integC := s.integral c
  let hpC := s.highpass c
  if s.threshold_i1 ≤ integC ∧ s.threshold_f1 ≤ hpC then
    if s.lastQRS + FS / 5 < s.sample then
      if s.sample ≤ s.lastQRS + SOFTLIMIT then
        let cs := PT.slopeAt s.squared c
        if primarySlopeReject cs s.lastSlope then noQRSE s
        else confirmPrimaryE s cs
      else
        let cs := PT.slopeAt s.squared c
        confirmPrimaryE s cs
    else
      let s : EState := noiseUpdateE s
      ({ s with outputSignal := PT.updB s.outputSignal c false }, false)
  else noQRSE s

/-- One iteration of the `PanTompkins()` main loop (`src/PanTompkinsEmbedded.c`
lines 448-810): intake, `last_avg` update and detrend, end-of-stream test on
the (possibly detrended) stored sample, sample-counter increment, filters,
classification. -/
def eStep (s : EState) (x : ℤ) : EState × Option Bool :=
  let s1 := ingestE s x
  let s2 := detrendE s1
  if s2.signal s2.current = NOSAMPLE then (s2, none)
  else
    let s3 : EState := { s2 with sample := s2.sample + 1 }
    let s4 := filtersE s3
    decidePhaseE s4 |>.map id some

/-- The `PanTompkins()` main loop over the active signal: each iteration reads
`input(sample)` (the signal entry at the current sample index, or the sentinel
past the end) and, after the filter delay has been covered
(`sample > DELAY + BUFFSIZE`), emits `outputSignal[0]`. -/
def runAux : ℕ → List ℤ → EState → EState × List Bool
  | 0, _, s => (s, [])
  | fuel + 1, sig, s =>
    let x := sig.getD s.sample NOSAMPLE
    match eStep s x with
    | (s', none) => (s', [])
    | (s', some _) =>
      let emitted := if DELAY + BUFFSIZE < s'.sample then [s'.outputSignal 0] else []
      let r := runAux fuel sig s'
      (r.1, emitted ++ r.2)

/-- The final flush of `PanTompkins()` (lines 812-814):
`for (i = 1; i < BUFFSIZE; i++) output(outputSignal[i]);`. -/
def flushOut (s : EState) : List Bool :=
  (List.range' 1 (BUFFSIZE - 1)).map s.outputSignal

/-- Entry of a `PanTompkins()` call: reset the run-local variables and the
sample/output counters (`lastQRS`, `lastSlope`, `regular`, the `last_avg`
window, `sample`), leaving all globals — buffers, RR data, thresholds, the
saved snapshot — as they were. -/
def startRun (s : EState) : EState :=
  { s with sample := 0, lastQRS := 0, lastSlope := 0, regular := true
           movWindow := [0, 0, 0, 0, 0] }

/-- A whole `PanTompkins()` invocation on a signal: run the main loop to the
sentinel, then flush the remaining decision buffer.  The returned list is the
full stream of `output()` decisions. -/
def PanTompkinsRun (s : EState) (sig : List ℤ) : EState × List Bool :=
  let r := runAux (sig.length + 1) sig (startRun s)
  (r.1, r.2 ++ flushOut r.1)

end PTE

/-- Comparator following the specification's words for the detrend stage
(spec §4.1 step 1 / claim C9): subtract from the incoming sample the exact
arithmetic mean of the N = 5 window entries. -/
def specDetrendMean (w : List ℤ) (x : ℤ) : ℚ := (x : ℚ) - (w.sum : ℚ) / 5

/-- A concrete detector state exercising back-search recovery with the
recovered interval inside `[rrlow, rrhigh]`: thresholds are high enough that
the current sample is no candidate, a secondary pulse is planted at buffer
index 95 (`integral` and `highpass` both 600 against secondary thresholds
500), the elapsed time since `lastQRS = 20` exceeds `rrmiss = 100`, and the
interval recovered at index 95 (76 samples) falls inside
`[rrlow, rrhigh] = [70, 80]`. -/
def S4 : PT.PTState :=
  { PT.init with
    integral := fun n => if n = 95 then 600 else 0
    highpass := fun n => if n = 95 then 600 else 0
    threshold_i1 := 1000, threshold_i2 := 500
    threshold_f1 := 1000, threshold_f2 := 500
    rrlow := 70, rrhigh := 80, rrmiss := 100
    sample := 199, lastQRS := 20 }

/-- A minimal well-formed detector state at the classification phase: one
sample ingested, buffer cursor at slot 0, everything else as at startup. -/
def C1s : PT.PTState := { PT.init with sample := 1 }

/-- A concrete detector state at the detrend stage whose window entries are
all multiples of five, so the truncated per-element division loses nothing. -/
def C9s : PT.PTState :=
  { PT.init with sample := 6, signal := fun _ => 10, movWindow := [5, 5, 5, 5, 5] }

/-- Claim C10: calling `PanTompkins_setsaved_filterstate` or
`PanTompkins_exportsaved_filterstate` with a NULL pointer returns immediately,
leaving the saved filter state and the caller's structure unchanged (the NULL
pointer is modelled as `none`; purity of the model makes "no write through the
pointer" the statement that the result is `none` resp. the unchanged state). -/
theorem c10_null_pointer_noop :
    ∀ s : PTE.EState,
      PTE.PanTompkins_setsaved_filterstate none s = s ∧
      PTE.PanTompkins_exportsaved_filterstate none s = none :=
  fun _ => ⟨rfl, rfl⟩

/-- Claim C7 counterexample: the claim asserts that saving then loading the
snapshot also restores `lastQRS`; but `FilterState` carries no such field, and
on a detector state with `lastQRS = 100` the save / transfer-to-fresh-instance
/ load pipeline yields `lastQRS = 0`. -/
theorem c7_counterexample :
    (PTE.PanTompkins_load_filterstate
      (PTE.PanTompkins_setsaved_filterstate
        (some (PTE.PanTompkins_save_filterstate
          { PTE.initE with lastQRS := 100, lastSlope := 55, threshold_i1 := 7 }).saved)
        (PTE.PanTompkins_init PTE.initE))).lastQRS = 0 ∧
    ({ PTE.initE with lastQRS := 100, lastSlope := 55, threshold_i1 := 7 } :
      PTE.EState).lastQRS = 100 ∧ (0 : ℕ) ≠ 100 ∧
    (PTE.PanTompkins_load_filterstate
      (PTE.PanTompkins_setsaved_filterstate
        (some (PTE.PanTompkins_save_filterstate
          { PTE.initE with lastQRS := 100, lastSlope := 55, threshold_i1 := 7 }).saved)
        (PTE.PanTompkins_init PTE.initE))).lastSlope = 0 :=
  ⟨rfl, rfl, by decide, rfl⟩

/-- Claim C7 amended: the save/load snapshot is exactly the `FilterState`
content — the two 8-entry RR histories, the five RR scalars and the ten
peak/threshold/spk/npk scalars.  Loading a saved snapshot into any state
restores precisely those 31 values; `lastQRS`, `lastSlope`, the
`regular` flag and the ring buffers of the target state are untouched
(they are per-run locals or transient buffers, outside the snapshot). -/
theorem c7_snapshot_fields :
    ∀ s t : PTE.EState,
      (PTE.PanTompkins_load_filterstate
        (PTE.PanTompkins_setsaved_filterstate
          (some (PTE.PanTompkins_save_filterstate s).saved) t)) =
      { t with
          rr1 := s.rr1, rr2 := s.rr2
          rravg1 := s.rravg1, rravg2 := s.rravg2
          rrlow := s.rrlow, rrhigh := s.rrhigh, rrmiss := s.rrmiss
          peak_i := s.peak_i, peak_f := s.peak_f
          threshold_i1 := s.threshold_i1, threshold_i2 := s.threshold_i2
          threshold_f1 := s.threshold_f1, threshold_f2 := s.threshold_f2
          spk_i := s.spk_i, spk_f := s.spk_f
          npk_i := s.npk_i, npk_f := s.npk_f
          saved := (PTE.PanTompkins_save_filterstate s).saved } :=
  fun _ _ => rfl

/-- Claim C8 counterexample: the back-search slope rejection is not the same
test as the primary-path slope rejection.  At `currentSlope = 1`,
`lastSlope = 2` the primary test rejects (`1 ≤ 2/2`) while the back-search
test does not (`1 < 2/2` fails); and at `currentSlope = 0`, `lastSlope = 10`
with `i = 300`, `sample = 300`, `lastQRS = 100` the strict slope comparison
holds but the additional conjunct `(i + sample) < lastQRS + 0.36*lastQRS`
fails, so back-search again does not reject where the primary test would. -/
theorem c8_counterexample :
    ¬(backsearchSlopeReject 1 2 100 200 150 = primarySlopeReject 1 2) ∧
    ¬(backsearchSlopeReject 0 10 300 300 100 = primarySlopeReject 0 10) := by
  constructor <;> decide

/-- Claim C8 amended: the back-search rejection at a qualifying index `i` is
`currentSlope < lastSlope/2` (strict, not the primary path's non-strict test)
conjoined with the additional condition `(i + sample) < lastQRS +
0.36*lastQRS`; consequently every candidate the back-search rejects would
also be rejected by the primary-path slope test, but not conversely. -/
theorem c8_backsearch_slope_implies_primary :
    ∀ (cs ls : ℤ) (i sample lastQRS : ℕ),
      backsearchSlopeReject cs ls i sample lastQRS = true →
      primarySlopeReject cs ls = true := by
  intro cs ls i sample lastQRS h
  simp only [backsearchSlopeReject, Bool.and_eq_true, decide_eq_true_eq] at h
  simp only [primarySlopeReject, decide_eq_true_eq]
  exact le_of_lt h.1

/-- Witness for the C8 amended theorem at a concrete rejecting input. -/
theorem c8_backsearch_slope_implies_primary_witness :
    backsearchSlopeReject 0 10 10 20 100 = true ∧ primarySlopeReject 0 10 = true :=
  ⟨by decide, c8_backsearch_slope_implies_primary 0 10 10 20 100 (by decide)⟩

/-- Claim C2 counterexample: after feeding the samples 8, 0 from the initial
state, the second sample is a hard-refractory noise peak whose threshold
update leaves `threshold_i1 = 3` and `threshold_i2 = 1`; with the integer
`dataType` of the source, `threshold_i2` is not exactly half of
`threshold_i1`.  No beat was ever confirmed, so no regular-to-irregular
halving has occurred (`regular` is still true). -/
theorem c2_counterexample :
    (PT.runTrace PT.init [8, 0]).1.threshold_i1 = 3 ∧
    (PT.runTrace PT.init [8, 0]).1.threshold_i2 = 1 ∧
    (PT.runTrace PT.init [8, 0]).1.regular = true ∧
    ¬(2 * (PT.runTrace PT.init [8, 0]).1.threshold_i2 =
        (PT.runTrace PT.init [8, 0]).1.threshold_i1) := by
  refine ⟨by decide, by decide, by decide, by decide⟩

/-- Claim C5 counterexample: processing the sentinel does mutate the buffered
histories.  After one processed sample the detector's signal buffer holds 0 at
index 1; the sentinel call writes -32000 there (`signal[current] = input()`
precedes the end-of-stream test), while still producing no decision. -/
theorem c5_counterexample :
    (PT.ptStep (PT.runTrace PT.init [5]).1 PT.NOSAMPLE).2 = none ∧
    (PT.ptStep (PT.runTrace PT.init [5]).1 PT.NOSAMPLE).1.signal 1 = PT.NOSAMPLE ∧
    (PT.runTrace PT.init [5]).1.signal 1 = 0 ∧ PT.NOSAMPLE ≠ 0 := by
  refine ⟨by decide, by decide, by decide, by decide⟩

/-- Claim C5 amended: processing the sentinel performs only the buffer intake
(the shift when full, and the write of the sentinel into `signal[current]`),
then breaks: no threshold, peak estimate, RR value, `lastQRS`, `lastSlope`,
slope or regularity state is updated, the sample counter does not advance,
and no decision is produced. -/
theorem c5_sentinel_state :
    ∀ (s : PT.PTState) (x : ℤ), x = PT.NOSAMPLE →
      PT.ptStep s x = (PT.ingest s x, none) ∧
      (PT.ingest s x).threshold_i1 = s.threshold_i1 ∧
      (PT.ingest s x).threshold_i2 = s.threshold_i2 ∧
      (PT.ingest s x).threshold_f1 = s.threshold_f1 ∧
      (PT.ingest s x).threshold_f2 = s.threshold_f2 ∧
      (PT.ingest s x).spk_i = s.spk_i ∧ (PT.ingest s x).spk_f = s.spk_f ∧
      (PT.ingest s x).npk_i = s.npk_i ∧ (PT.ingest s x).npk_f = s.npk_f ∧
      (PT.ingest s x).peak_i = s.peak_i ∧ (PT.ingest s x).peak_f = s.peak_f ∧
      (PT.ingest s x).rr1 = s.rr1 ∧ (PT.ingest s x).rr2 = s.rr2 ∧
      (PT.ingest s x).rravg1 = s.rravg1 ∧ (PT.ingest s x).rravg2 = s.rravg2 ∧
      (PT.ingest s x).rrlow = s.rrlow ∧ (PT.ingest s x).rrhigh = s.rrhigh ∧
      (PT.ingest s x).rrmiss = s.rrmiss ∧
      (PT.ingest s x).lastQRS = s.lastQRS ∧ (PT.ingest s x).lastSlope = s.lastSlope ∧
      (PT.ingest s x).sample = s.sample ∧ (PT.ingest s x).regular = s.regular ∧
      (PT.ingest s x).movWindow = s.movWindow := by
  intro s x hx
  subst hx
  refine ⟨by simp [PT.ptStep], ?_⟩
  unfold PT.ingest
  split <;> simp

/-- Witness for the C5 amended theorem at a concrete state and the sentinel. -/
theorem c5_sentinel_state_witness :
    PT.ptStep PT.init PT.NOSAMPLE = (PT.ingest PT.init PT.NOSAMPLE, none) ∧
    (PT.ingest PT.init PT.NOSAMPLE).threshold_i1 = PT.init.threshold_i1 :=
  ⟨(c5_sentinel_state PT.init PT.NOSAMPLE rfl).1,
   (c5_sentinel_state PT.init PT.NOSAMPLE rfl).2.1⟩

/-- Claim C9 counterexample: with eleven samples of constant value 1, the
detrend window at the tenth call holds [1, 1, 1, 1, 1]; the exact mean of the
window is 1, so the specified detrend output is 1 - 1 = 0, but the code sums
the element-wise truncated divisions `window[k]/5 = 0` and stores 1. -/
theorem c9_counterexample :
    (PT.ptStep (PT.runTrace PT.init (List.replicate 9 1)).1 1).1.movWindow = [1, 1, 1, 1, 1] ∧
    (PT.runTrace PT.init (List.replicate 9 1)).1.movWindow = [1, 1, 1, 1, 1] ∧
    (PT.ptStep (PT.runTrace PT.init (List.replicate 9 1)).1 1).1.signal 9 = 1 ∧
    specDetrendMean [1, 1, 1, 1, 1] 1 = 0 ∧
    ¬(((PT.ptStep (PT.runTrace PT.init (List.replicate 9 1)).1 1).1.signal 9 : ℚ) =
        specDetrendMean [1, 1, 1, 1, 1] 1) := by
  have h3 : (PT.ptStep (PT.runTrace PT.init (List.replicate 9 1)).1 1).1.signal 9 = 1 := by
    decide
  refine ⟨by decide, by decide, h3, by norm_num [specDetrendMean], ?_⟩
  rw [h3]
  norm_num [specDetrendMean]

/-- Claim C6 amended: saving the filter state and loading it into a freshly
initialized instance reproduces exactly the snapshot content — the two RR
histories, the five RR scalars and the ten threshold-engine scalars; the
subsequent decision streams of the two instances can nevertheless differ,
because the ring buffers (including the buffered decisions that the final
flush emits) are not part of the snapshot. -/
theorem c6_snapshot_restore :
    ∀ g : PTE.EState,
      (PTE.PanTompkins_load_filterstate
        (PTE.PanTompkins_setsaved_filterstate
          (some (PTE.PanTompkins_save_filterstate g).saved)
          (PTE.PanTompkins_init PTE.initE))).rr1 = g.rr1 ∧
      (PTE.PanTompkins_load_filterstate
        (PTE.PanTompkins_setsaved_filterstate
          (some (PTE.PanTompkins_save_filterstate g).saved)
          (PTE.PanTompkins_init PTE.initE))).rr2 = g.rr2 ∧
      (PTE.PanTompkins_load_filterstate
        (PTE.PanTompkins_setsaved_filterstate
          (some (PTE.PanTompkins_save_filterstate g).saved)
          (PTE.PanTompkins_init PTE.initE))).rravg1 = g.rravg1 ∧
      (PTE.PanTompkins_load_filterstate
        (PTE.PanTompkins_setsaved_filterstate
          (some (PTE.PanTompkins_save_filterstate g).saved)
          (PTE.PanTompkins_init PTE.initE))).rravg2 = g.rravg2 ∧
      (PTE.PanTompkins_load_filterstate
        (PTE.PanTompkins_setsaved_filterstate
          (some (PTE.PanTompkins_save_filterstate g).saved)
          (PTE.PanTompkins_init PTE.initE))).rrlow = g.rrlow ∧
      (PTE.PanTompkins_load_filterstate
        (PTE.PanTompkins_setsaved_filterstate
          (some (PTE.PanTompkins_save_filterstate g).saved)
          (PTE.PanTompkins_init PTE.initE))).rrhigh = g.rrhigh ∧
      (PTE.PanTompkins_load_filterstate
        (PTE.PanTompkins_setsaved_filterstate
          (some (PTE.PanTompkins_save_filterstate g).saved)
          (PTE.PanTompkins_init PTE.initE))).rrmiss = g.rrmiss ∧
      (PTE.PanTompkins_load_filterstate
        (PTE.PanTompkins_setsaved_filterstate
          (some (PTE.PanTompkins_save_filterstate g).saved)
          (PTE.PanTompkins_init PTE.initE))).peak_i = g.peak_i ∧
      (PTE.PanTompkins_load_filterstate
        (PTE.PanTompkins_setsaved_filterstate
          (some (PTE.PanTompkins_save_filterstate g).saved)
          (PTE.PanTompkins_init PTE.initE))).peak_f = g.peak_f ∧
      (PTE.PanTompkins_load_filterstate
        (PTE.PanTompkins_setsaved_filterstate
          (some (PTE.PanTompkins_save_filterstate g).saved)
          (PTE.PanTompkins_init PTE.initE))).threshold_i1 = g.threshold_i1 ∧
      (PTE.PanTompkins_load_filterstate
        (PTE.PanTompkins_setsaved_filterstate
          (some (PTE.PanTompkins_save_filterstate g).saved)
          (PTE.PanTompkins_init PTE.initE))).threshold_i2 = g.threshold_i2 ∧
      (PTE.PanTompkins_load_filterstate
        (PTE.PanTompkins_setsaved_filterstate
          (some (PTE.PanTompkins_save_filterstate g).saved)
          (PTE.PanTompkins_init PTE.initE))).threshold_f1 = g.threshold_f1 ∧
      (PTE.PanTompkins_load_filterstate
        (PTE.PanTompkins_setsaved_filterstate
          (some (PTE.PanTompkins_save_filterstate g).saved)
          (PTE.PanTompkins_init PTE.initE))).threshold_f2 = g.threshold_f2 ∧
      (PTE.PanTompkins_load_filterstate
        (PTE.PanTompkins_setsaved_filterstate
          (some (PTE.PanTompkins_save_filterstate g).saved)
          (PTE.PanTompkins_init PTE.initE))).spk_i = g.spk_i ∧
      (PTE.PanTompkins_load_filterstate
        (PTE.PanTompkins_setsaved_filterstate
          (some (PTE.PanTompkins_save_filterstate g).saved)
          (PTE.PanTompkins_init PTE.initE))).spk_f = g.spk_f ∧
      (PTE.PanTompkins_load_filterstate
        (PTE.PanTompkins_setsaved_filterstate
          (some (PTE.PanTompkins_save_filterstate g).saved)
          (PTE.PanTompkins_init PTE.initE))).npk_i = g.npk_i ∧
      (PTE.PanTompkins_load_filterstate
        (PTE.PanTompkins_setsaved_filterstate
          (some (PTE.PanTompkins_save_filterstate g).saved)
          (PTE.PanTompkins_init PTE.initE))).npk_f = g.npk_f :=
  fun _ => ⟨rfl, rfl, rfl, rfl, rfl, rfl, rfl, rfl, rfl, rfl, rfl, rfl, rfl, rfl, rfl, rfl, rfl⟩

set_option maxRecDepth 100000 in
/-- Claim C6 counterexample: run the embedded detector from a fresh process on
91 zero samples (it reports one beat, at buffer index 90), save the filter
state, and continue both the original instance and a freshly initialized
instance loaded with that snapshot on the same ten-sample continuation.  The
decision streams differ: the original instance's final flush re-emits the
stale buffered beat flag at buffer index 90 (output position 89), while the
fresh instance emits false there. -/
theorem c6_counterexample :
    (PTE.PanTompkinsRun (PTE.PanTompkinsRun PTE.initE (List.replicate 91 0)).1
        (List.replicate 10 0)).2.get? 89 = some true ∧
    (PTE.PanTompkinsRun
        (PTE.PanTompkins_load_filterstate
          (PTE.PanTompkins_setsaved_filterstate
            (some (PTE.PanTompkins_save_filterstate
              (PTE.PanTompkinsRun PTE.initE (List.replicate 91 0)).1).saved)
            (PTE.PanTompkins_init PTE.initE)))
        (List.replicate 10 0)).2.get? 89 = some false := by
  constructor <;> decide

namespace PT

end PT


namespace PT

end PT

namespace PT

/-- The peak-candidate update touches only `peak_i`/`peak_f`. -/
theorem peakUpdate_scalars (t : PTState) :
    (peakUpdate t).threshold_i1 = t.threshold_i1 ∧
    (peakUpdate t).threshold_i2 = t.threshold_i2 ∧
    (peakUpdate t).threshold_f1 = t.threshold_f1 ∧
    (peakUpdate t).threshold_f2 = t.threshold_f2 ∧
    (peakUpdate t).regular = t.regular := by
  unfold peakUpdate
  split <;> simp

/-- The noise-peak update re-establishes the secondary-threshold relation on
both signal paths. -/
theorem noiseUpdate_half (t : PTState) :
    (noiseUpdate t).threshold_i2 = Int.tdiv (noiseUpdate t).threshold_i1 2 ∧
    (noiseUpdate t).threshold_f2 = Int.tdiv (noiseUpdate t).threshold_f1 2 :=
  ⟨rfl, rfl⟩

/-- The RR update after a confirmed beat either leaves all four thresholds
unchanged, or performs the regular-to-irregular halving (in which case the
pre-state was regular and the post-state is not). -/
theorem rrUpdatePrimary_thresholds (t : PTState) :
    ((rrUpdatePrimary t).threshold_i1 = t.threshold_i1 ∧
     (rrUpdatePrimary t).threshold_i2 = t.threshold_i2 ∧
     (rrUpdatePrimary t).threshold_f1 = t.threshold_f1 ∧
     (rrUpdatePrimary t).threshold_f2 = t.threshold_f2) ∨
    (t.regular = true ∧ (rrUpdatePrimary t).regular = false) := by
  simp only [rrUpdatePrimary]
  split_ifs <;> simp_all

/-- A primary confirmation re-establishes the secondary-threshold relation,
unless it ends in the regular-to-irregular halving. -/
theorem confirmPrimary_thresholds (t : PTState) (cs : ℤ) :
    (t.regular = true ∧ (confirmPrimary t cs).1.regular = false) ∨
    ((confirmPrimary t cs).1.threshold_i2 = Int.tdiv (confirmPrimary t cs).1.threshold_i1 2 ∧
     (confirmPrimary t cs).1.threshold_f2 = Int.tdiv (confirmPrimary t cs).1.threshold_f1 2) := by
  simp only [confirmPrimary]
  rcases rrUpdatePrimary_thresholds
    { t with
      spk_i := Int.tdiv (t.peak_i + 7 * t.spk_i) 8
      threshold_i1 := Int.tdiv (3 * t.npk_i + Int.tdiv (t.peak_i + 7 * t.spk_i) 8) 4
      threshold_i2 := Int.tdiv (Int.tdiv (3 * t.npk_i + Int.tdiv (t.peak_i + 7 * t.spk_i) 8) 4) 2
      spk_f := Int.tdiv (t.peak_f + 7 * t.spk_f) 8
      threshold_f1 := Int.tdiv (3 * t.npk_f + Int.tdiv (t.peak_f + 7 * t.spk_f) 8) 4
      threshold_f2 := Int.tdiv (Int.tdiv (3 * t.npk_f + Int.tdiv (t.peak_f + 7 * t.spk_f) 8) 4) 2
      lastSlope := cs } with h | h
  · right
    exact ⟨by rw [h.2.1, h.1], by rw [h.2.2.2, h.2.2.1]⟩
  · left
    exact h

/-- A back-search confirmation re-establishes the secondary-threshold
relation, unless it ends in the regular-to-irregular halving. -/
theorem backsearchConfirm_thresholds (t : PTState) (i : ℕ) :
    (t.regular = true ∧ (backsearchConfirm t i).1.regular = false) ∨
    ((backsearchConfirm t i).1.threshold_i2 =
        Int.tdiv (backsearchConfirm t i).1.threshold_i1 2 ∧
     (backsearchConfirm t i).1.threshold_f2 =
        Int.tdiv (backsearchConfirm t i).1.threshold_f1 2) := by
  simp only [backsearchConfirm]
  split_ifs <;> simp_all

/-- The no-beat tail either leaves the four thresholds unchanged, performs a
noise update re-establishing the secondary-threshold relation, or ends in the
back-search halving. -/
theorem noQRS_thresholds (t : PTState) :
    ((noQRS t).1.threshold_i1 = t.threshold_i1 ∧ (noQRS t).1.threshold_i2 = t.threshold_i2 ∧
     (noQRS t).1.threshold_f1 = t.threshold_f1 ∧ (noQRS t).1.threshold_f2 = t.threshold_f2) ∨
    (t.regular = true ∧ (noQRS t).1.regular = false) ∨
    ((noQRS t).1.threshold_i2 = Int.tdiv (noQRS t).1.threshold_i1 2 ∧
     (noQRS t).1.threshold_f2 = Int.tdiv (noQRS t).1.threshold_f1 2) := by
  simp only [noQRS]
  split_ifs with h1 h2
  · rcases hf : bsearchFind t with _ | i <;> simp only [hf]
    · right; right; exact noiseUpdate_half t
    · rcases backsearchConfirm_thresholds t i with h | h
      · right; left; exact h
      · right; right; exact h
  · rcases hf : bsearchFind t with _ | i <;> simp only [hf]
    · left; simp
    · rcases backsearchConfirm_thresholds t i with h | h
      · right; left; exact h
      · right; right; exact h
  · right; right; exact noiseUpdate_half t
  · left; simp

/-- The whole classification phase either leaves the four thresholds
unchanged, re-establishes the secondary-threshold relation, or performs the
regular-to-irregular halving. -/
theorem decidePhase_thresholds (t : PTState) :
    ((decidePhase t).1.threshold_i1 = t.threshold_i1 ∧
     (decidePhase t).1.threshold_i2 = t.threshold_i2 ∧
     (decidePhase t).1.threshold_f1 = t.threshold_f1 ∧
     (decidePhase t).1.threshold_f2 = t.threshold_f2) ∨
    (t.regular = true ∧ (decidePhase t).1.regular = false) ∨
    ((decidePhase t).1.threshold_i2 = Int.tdiv (decidePhase t).1.threshold_i1 2 ∧
     (decidePhase t).1.threshold_f2 = Int.tdiv (decidePhase t).1.threshold_f1 2) := by
  obtain ⟨p1, p2, p3, p4, p5⟩ := peakUpdate_scalars t
  simp only [decidePhase]
  split_ifs
  · rcases noQRS_thresholds (peakUpdate t) with h | h | h
    · exact Or.inl ⟨h.1.trans p1, h.2.1.trans p2, h.2.2.1.trans p3, h.2.2.2.trans p4⟩
    · exact Or.inr (Or.inl ⟨p5 ▸ h.1, h.2⟩)
    · exact Or.inr (Or.inr h)
  · rcases confirmPrimary_thresholds (peakUpdate t) (slopeAt (peakUpdate t).squared (peakUpdate t).current) with h | h
    · exact Or.inr (Or.inl ⟨p5 ▸ h.1, h.2⟩)
    · exact Or.inr (Or.inr h)
  · rcases confirmPrimary_thresholds (peakUpdate t) (slopeAt (peakUpdate t).squared (peakUpdate t).current) with h | h
    · exact Or.inr (Or.inl ⟨p5 ▸ h.1, h.2⟩)
    · exact Or.inr (Or.inr h)
  · exact Or.inr (Or.inr (noiseUpdate_half (peakUpdate t)))
  · rcases noQRS_thresholds (peakUpdate t) with h | h | h
    · exact Or.inl ⟨h.1.trans p1, h.2.1.trans p2, h.2.2.1.trans p3, h.2.2.2.trans p4⟩
    · exact Or.inr (Or.inl ⟨p5 ▸ h.1, h.2⟩)
    · exact Or.inr (Or.inr h)

end PT

namespace PT

/-- Buffer intake leaves the threshold engine and the rhythm flag alone. -/
theorem ingest_thresholds (s : PTState) (x : ℤ) :
    (ingest s x).threshold_i1 = s.threshold_i1 ∧
    (ingest s x).threshold_i2 = s.threshold_i2 ∧
    (ingest s x).threshold_f1 = s.threshold_f1 ∧
    (ingest s x).threshold_f2 = s.threshold_f2 ∧
    (ingest s x).regular = s.regular := by
  unfold ingest
  split <;> simp

/-- The detrend stage leaves the threshold engine and the rhythm flag alone. -/
theorem detrend_thresholds (t : PTState) :
    (detrend t).threshold_i1 = t.threshold_i1 ∧
    (detrend t).threshold_i2 = t.threshold_i2 ∧
    (detrend t).threshold_f1 = t.threshold_f1 ∧
    (detrend t).threshold_f2 = t.threshold_f2 ∧
    (detrend t).regular = t.regular := by
  simp only [detrend]
  split <;> simp

/-- The filter cascade leaves the threshold engine and the rhythm flag alone. -/
theorem filters_thresholds (t : PTState) :
    (filters t).threshold_i1 = t.threshold_i1 ∧
    (filters t).threshold_i2 = t.threshold_i2 ∧
    (filters t).threshold_f1 = t.threshold_f1 ∧
    (filters t).threshold_f2 = t.threshold_f2 ∧
    (filters t).regular = t.regular :=
  ⟨rfl, rfl, rfl, rfl, rfl⟩

end PT

/-- Claim C2 amended: after any step of the detector, either no threshold was
updated this step, or the step ended in the documented regular-to-irregular
halving (the pre-state was regular and the post-state is not), or the
secondary thresholds equal their primaries halved with C integer truncation:
`threshold_i2 = (dataType)(0.5*threshold_i1)` (that is, `Int.tdiv _ 2`) and
likewise for the f-pair.  With the integer `dataType` of the source this
truncated halving — not an exact factor 0.5 — is the invariant the update
sites establish (see the counterexample for an odd `threshold_i1`). -/
theorem c2_threshold_halving :
    ∀ (s : PT.PTState) (x : ℤ),
      (s.regular = true ∧ (PT.ptStep s x).1.regular = false) ∨
      ((PT.ptStep s x).1.threshold_i1 = s.threshold_i1 ∧
       (PT.ptStep s x).1.threshold_i2 = s.threshold_i2 ∧
       (PT.ptStep s x).1.threshold_f1 = s.threshold_f1 ∧
       (PT.ptStep s x).1.threshold_f2 = s.threshold_f2) ∨
      ((PT.ptStep s x).1.threshold_i2 = Int.tdiv (PT.ptStep s x).1.threshold_i1 2 ∧
       (PT.ptStep s x).1.threshold_f2 = Int.tdiv (PT.ptStep s x).1.threshold_f1 2) := by
  intro s x
  obtain ⟨i1, i2, i3, i4, i5⟩ := PT.ingest_thresholds s x
  simp only [PT.ptStep]
  split_ifs with hx
  · right; left; exact ⟨i1, i2, i3, i4⟩
  · obtain ⟨d1, d2, d3, d4, d5⟩ :=
      PT.detrend_thresholds { PT.ingest s x with sample := (PT.ingest s x).sample + 1 }
    obtain ⟨f1, f2, f3, f4, f5⟩ :=
      PT.filters_thresholds
        (PT.detrend { PT.ingest s x with sample := (PT.ingest s x).sample + 1 })
    rcases PT.decidePhase_thresholds
        (PT.filters (PT.detrend { PT.ingest s x with sample := (PT.ingest s x).sample + 1 }))
      with h | h | h
    · right; left
      refine ⟨?_, ?_, ?_, ?_⟩ <;>
        simp only [Prod.map_fst, id] <;>
        first
          | exact (h.1.trans f1).trans (d1.trans i1)
          | exact (h.2.1.trans f2).trans (d2.trans i2)
          | exact (h.2.2.1.trans f3).trans (d3.trans i3)
          | exact (h.2.2.2.trans f4).trans (d4.trans i4)
    · left
      constructor
      · rw [← i5, ← d5, ← f5]; exact h.1
      · simpa only [Prod.map_fst, id] using h.2
    · right; right
      simpa only [Prod.map_fst, id] using h

/-- Claim C4, evaluated at the failing input: the back-search accepts the
planted pulse at buffer index 95 and the RR update does use it (the new
`lastQRS` is `sample - (current - 95) = 96`, the stored interval is 76,
inside `[70, 80]`), but the true decision flag is written at absolute buffer
index 7 — the `rr2` shift loop reused the back-search index variable `i` —
and index 95 stays false.  The claim (and the source's own history comments)
require the flag at the recovered position 95. -/
theorem c4_backsearch_flag_misplacement :
    PT.bsearchFind
        (PT.filters (PT.detrend { PT.ingest S4 0 with sample := (PT.ingest S4 0).sample + 1 })) =
      some 95 ∧
    (PT.ptStep S4 0).1.lastQRS = 96 ∧
    (PT.ptStep S4 0).1.rr1.getLast? = some 76 ∧
    (S4.rrlow ≤ 76 ∧ (76 : ℤ) ≤ S4.rrhigh) ∧
    (PT.ptStep S4 0).1.outputSignal 7 = true ∧
    (PT.ptStep S4 0).1.outputSignal 95 = false ∧
    (PT.ptStep S4 0).2 = some false := by
  refine ⟨by decide, by decide, by decide, by decide, by decide, by decide, by decide⟩


namespace PT

/-- The peak-candidate update touches nothing but the two peak fields. -/
theorem peakUpdate_fields (t : PTState) :
    (peakUpdate t).integral = t.integral ∧ (peakUpdate t).highpass = t.highpass ∧
    (peakUpdate t).squared = t.squared ∧ (peakUpdate t).current = t.current ∧
    (peakUpdate t).sample = t.sample ∧ (peakUpdate t).lastQRS = t.lastQRS ∧
    (peakUpdate t).lastSlope = t.lastSlope ∧
    (peakUpdate t).threshold_i1 = t.threshold_i1 ∧
    (peakUpdate t).threshold_f1 = t.threshold_f1 := by
  unfold peakUpdate
  split <;> simp

/-- A primary confirmation sets `lastQRS` to the current sample counter and
reports the beat. -/
theorem confirmPrimary_lastQRS (t : PTState) (cs : ℤ) :
    (confirmPrimary t cs).1.lastQRS = t.sample ∧ (confirmPrimary t cs).2 = true := by
  simp only [confirmPrimary, rrUpdatePrimary]
  split_ifs <;> simp

/-- An accepted back-search index lies inside the scan range: strictly before
`current`, and no earlier than `current - (sample - lastQRS) + FS/5`. -/
theorem bsearchFind_bounds (t : PTState) (i : ℕ) (h : bsearchFind t = some i) :
    t.current + FS / 5 ≤ i + (t.sample - t.lastQRS) ∧ i < t.current := by
  simp only [bsearchFind, bsearchIdxs] at h
  split at h
  case isTrue hpos =>
    have hm := List.mem_of_find?_eq_some h
    rw [List.mem_range'] at hm
    obtain ⟨k, hk, hik⟩ := hm
    have htn := Int.toNat_of_nonneg hpos
    omega
  case isFalse =>
    simp at h

/-- A back-search confirmation sets `lastQRS` to the recovered position. -/
theorem backsearchConfirm_lastQRS (t : PTState) (i : ℕ) :
    (backsearchConfirm t i).1.lastQRS = t.sample - (t.current - i) := by
  simp only [backsearchConfirm]
  split_ifs <;> simp

/-- A back-search confirmation never flags the current position when the
recovered index and buffer slot 7 both differ from `current`. -/
theorem backsearchConfirm_decision (t : PTState) (i : ℕ)
    (hi : i ≠ t.current) (h7 : t.current ≠ 7) :
    (backsearchConfirm t i).2 = false := by
  simp only [backsearchConfirm, updB]
  split_ifs <;> simp_all

/-- In the no-beat tail the decision at the current position is false, and
`lastQRS` either stays put or advances by at least FS/5 (a back-search
recovery).  The first hypothesis supplies the buffer-geometry fact that once
the hard refractory has elapsed the current index is beyond slot 7; it holds
for every reachable state. -/
theorem noQRS_facts (t : PTState) (h7g : t.lastQRS + FS / 5 < t.sample → 7 < t.current)
    (hlq : t.lastQRS ≤ t.sample) :
    (noQRS t).2 = false ∧
    ((noQRS t).1.lastQRS = t.lastQRS ∨ t.lastQRS + FS / 5 ≤ (noQRS t).1.lastQRS) := by
  simp only [noQRS]
  split_ifs with h1 h2
  · have h7 := h7g h1.2
    rcases hf : bsearchFind t with _ | i <;> simp only [hf]
    · exact ⟨by trivial, Or.inl (by trivial)⟩
    · obtain ⟨hb1, hb2⟩ := bsearchFind_bounds t i hf
      refine ⟨backsearchConfirm_decision t i (by omega) (by omega), Or.inr ?_⟩
      rw [backsearchConfirm_lastQRS t i]
      omega
  · have h7 := h7g h1.2
    rcases hf : bsearchFind t with _ | i <;> simp only [hf]
    · exact ⟨by trivial, Or.inl (by trivial)⟩
    · obtain ⟨hb1, hb2⟩ := bsearchFind_bounds t i hf
      refine ⟨backsearchConfirm_decision t i (by omega) (by omega), Or.inr ?_⟩
      rw [backsearchConfirm_lastQRS t i]
      omega
  · exact ⟨by trivial, Or.inl (by trivial)⟩
  · exact ⟨by trivial, Or.inl (by trivial)⟩

end PT

/-- Claim C1: the hard refractory is absolute.  For every well-formed state at
the classification phase: (a) a candidate exceeding both primary thresholds
at most FS/5 samples after `lastQRS` is rejected — the decision at the
current position is false and `lastQRS` is unchanged; (b) whenever the step
reports a beat at the current position, `lastQRS` is advanced to the current
sample counter, strictly more than FS/5 past its previous value; and (c) in
every case `lastQRS` either stays put or advances by at least FS/5, so two
successive confirmed beats (including back-search recoveries) are always at
least FS/5 samples apart. -/
theorem c1_hard_refractory :
    ∀ s : PT.PTState, PT.PTwf s →
      ((s.threshold_i1 ≤ s.integral s.current ∧ s.threshold_f1 ≤ s.highpass s.current ∧
        s.sample ≤ s.lastQRS + PT.FS / 5) →
          (PT.decidePhase s).2 = false ∧ (PT.decidePhase s).1.lastQRS = s.lastQRS) ∧
      ((PT.decidePhase s).2 = true →
          (PT.decidePhase s).1.lastQRS = s.sample ∧
          s.lastQRS + PT.FS / 5 < (PT.decidePhase s).1.lastQRS) ∧
      ((PT.decidePhase s).1.lastQRS = s.lastQRS ∨
        s.lastQRS + PT.FS / 5 ≤ (PT.decidePhase s).1.lastQRS) := by
  intro s hwf
  obtain ⟨hlq, hcur⟩ := hwf
  have hcur' : s.current = min (s.sample - 1) 599 := hcur
  obtain ⟨pI, pH, pSq, pC, pS, pL, pSl, pT1, pT3⟩ := PT.peakUpdate_fields s
  have hFS : PT.FS / 5 = 72 := rfl
  have h7g : (PT.peakUpdate s).lastQRS + PT.FS / 5 < (PT.peakUpdate s).sample →
      7 < (PT.peakUpdate s).current := by
    rw [pL, pS, pC, hFS]
    omega
  have hlqu : (PT.peakUpdate s).lastQRS ≤ (PT.peakUpdate s).sample := by
    rw [pL, pS]; omega
  refine ⟨?_, ?_, ?_⟩
  · rintro ⟨ha, hb, hc⟩
    have hboth : (PT.peakUpdate s).threshold_i1 ≤
        (PT.peakUpdate s).integral (PT.peakUpdate s).current ∧
        (PT.peakUpdate s).threshold_f1 ≤
          (PT.peakUpdate s).highpass (PT.peakUpdate s).current := by
      rw [pT1, pT3, pI, pH, pC]; exact ⟨ha, hb⟩
    have hgate : ¬((PT.peakUpdate s).lastQRS + PT.FS / 5 < (PT.peakUpdate s).sample) := by
      rw [pL, pS, hFS]
      rw [hFS] at hc
      omega
    simp only [PT.decidePhase]
    rw [if_pos hboth, if_neg hgate]
    exact ⟨rfl, pL⟩
  · intro hd
    simp only [PT.decidePhase] at hd ⊢
    split_ifs at hd ⊢ with hboth hgate hsoft hrej
    · obtain ⟨hdec, _⟩ := PT.noQRS_facts (PT.peakUpdate s) h7g hlqu
      rw [hdec] at hd
      exact absurd hd (by decide)
    · obtain ⟨hcl, _⟩ := PT.confirmPrimary_lastQRS (PT.peakUpdate s)
        (PT.slopeAt (PT.peakUpdate s).squared (PT.peakUpdate s).current)
      rw [pL, pS] at hgate
      exact ⟨hcl.trans pS, by rw [hcl, pS]; exact hgate⟩
    · obtain ⟨hcl, _⟩ := PT.confirmPrimary_lastQRS (PT.peakUpdate s)
        (PT.slopeAt (PT.peakUpdate s).squared (PT.peakUpdate s).current)
      rw [pL, pS] at hgate
      exact ⟨hcl.trans pS, by rw [hcl, pS]; exact hgate⟩
    · obtain ⟨hdec, _⟩ := PT.noQRS_facts (PT.peakUpdate s) h7g hlqu
      rw [hdec] at hd
      exact absurd hd (by decide)
  · simp only [PT.decidePhase]
    split_ifs with hboth hgate hsoft hrej
    · rcases (PT.noQRS_facts (PT.peakUpdate s) h7g hlqu).2 with h | h
      · left; exact h.trans pL
      · right; rw [pL] at h; exact h
    · obtain ⟨hcl, _⟩ := PT.confirmPrimary_lastQRS (PT.peakUpdate s)
        (PT.slopeAt (PT.peakUpdate s).squared (PT.peakUpdate s).current)
      right
      rw [hcl, pS]
      rw [pL, pS] at hgate
      omega
    · obtain ⟨hcl, _⟩ := PT.confirmPrimary_lastQRS (PT.peakUpdate s)
        (PT.slopeAt (PT.peakUpdate s).squared (PT.peakUpdate s).current)
      right
      rw [hcl, pS]
      rw [pL, pS] at hgate
      omega
    · left; exact pL
    · rcases (PT.noQRS_facts (PT.peakUpdate s) h7g hlqu).2 with h | h
      · left; exact h.trans pL
      · right; rw [pL] at h; exact h

/-- Claim C1 witness: the minimal well-formed state `C1s` satisfies the
well-formedness hypothesis and the refractory clause, so the theorem applies:
the initial zero candidate one sample after startup is rejected with
`lastQRS` untouched. -/
theorem c1_hard_refractory_witness :
    PT.PTwf C1s ∧ (PT.decidePhase C1s).2 = false ∧
      (PT.decidePhase C1s).1.lastQRS = C1s.lastQRS :=
  ⟨⟨by decide, by decide⟩,
    (c1_hard_refractory C1s ⟨by decide, by decide⟩).1 ⟨by decide, by decide, by decide⟩⟩


/-- Claim C9 amended: once more than `MOVING_AVG_LEN` samples have been seen
and the stored sample is not the sentinel, the detrend stage subtracts from
the incoming raw sample the sum of the elementwise-truncated fifths of the
5-entry window (C integer division `window[k]/5`, summed) — not the exact
arithmetic mean — and the window shifts by exactly one entry.  The truncated
subtraction agrees with the specification's exact mean (`specDetrendMean`)
precisely when the truncation loses nothing, i.e. when five times the
truncated sum equals the window sum. -/
theorem c9_detrend_truncated (s : PT.PTState)
    (h : PT.MOVING_AVG_LEN < s.sample) (hx : s.signal s.current ≠ PT.NOSAMPLE) :
    (PT.detrend s).signal s.current =
      s.signal s.current -
        ((s.movWindow.set 4 (s.signal s.current)).map (fun v => Int.tdiv v 5)).sum ∧
    (PT.detrend s).movWindow =
      (s.movWindow.set 4 (s.signal s.current)).tail ++ [s.signal s.current] ∧
    (((s.movWindow.set 4 (s.signal s.current)).map (fun v => Int.tdiv v 5)).sum * 5 =
        (s.movWindow.set 4 (s.signal s.current)).sum →
      ((PT.detrend s).signal s.current : ℚ) =
        specDetrendMean (s.movWindow.set 4 (s.signal s.current)) (s.signal s.current)) := by
  simp only [PT.detrend]
  rw [if_pos ⟨h, hx⟩]
  have h1 : (PT.upd s.signal s.current
      (s.signal s.current -
        ((s.movWindow.set 4 (s.signal s.current)).map (fun v => Int.tdiv v 5)).sum))
      s.current =
      s.signal s.current -
        ((s.movWindow.set 4 (s.signal s.current)).map (fun v => Int.tdiv v 5)).sum := by
    simp [PT.upd]
  refine ⟨h1, rfl, ?_⟩
  intro hS
  simp only [PT.upd, specDetrendMean, if_true]
  have h2 : ((s.movWindow.set 4 (s.signal s.current)).sum : ℚ) =
      (((s.movWindow.set 4 (s.signal s.current)).map (fun v => Int.tdiv v 5)).sum : ℚ) * 5 := by
    exact_mod_cast congrArg (fun z : ℤ => (z : ℚ)) hS.symm
  rw [h2]
  push_cast
  ring

/-- Claim C9 witness: at the concrete state `C9s` (window of fives, incoming
sample 10) the hypotheses hold, the detrend subtracts the truncated sum, and
because every window entry is a multiple of five the result coincides with
the specification's exact mean. -/
theorem c9_detrend_truncated_witness :
    PT.MOVING_AVG_LEN < C9s.sample ∧ C9s.signal C9s.current ≠ PT.NOSAMPLE ∧
    (PT.detrend C9s).signal C9s.current =
      C9s.signal C9s.current -
        ((C9s.movWindow.set 4 (C9s.signal C9s.current)).map (fun v => Int.tdiv v 5)).sum ∧
    ((PT.detrend C9s).signal C9s.current : ℚ) =
      specDetrendMean (C9s.movWindow.set 4 (C9s.signal C9s.current))
        (C9s.signal C9s.current) :=
  ⟨by decide, by decide, (c9_detrend_truncated C9s (by decide) (by decide)).1,
    (c9_detrend_truncated C9s (by decide) (by decide)).2.2 (by decide)⟩
